import Mathlib

/-!
Verification development for the anime catalog / video streaming backend
(src/server.js).  The claims under scrutiny concern the byte-range video
streaming route GET /api/animes/:id/episodes/:episode/server/:server
(server.js lines 412-473), the helper readEpisodes (lines 107-122), the
anime-by-id route (lines 222-243) and the route registration order.

Shallow embedding conventions:
- Strings are Lean String / List Char; JavaScript parseInt(s, 10) is
  modelled by jsParseInt, whose none result stands for NaN.
- Numbers are Nat / Int (exact); JavaScript float rounding above
  Number.MAX_SAFE_INTEGER is not modelled (all realistic file sizes and
  range offsets are far below 2^53).
- A video file is a List Nat of its bytes; the local file system is a
  function from joined path to Option (List Nat) (none = not existing).
- fs.createReadStream(path, with start and end) follows the documented
  Node contract: start and end must be integers with 0 <= start,
  0 <= end and start <= end, otherwise the constructor throws
  ERR_OUT_OF_RANGE synchronously; a synchronous throw inside an Express
  handler is answered by the default error handler with status 500
  (Response.serverError below).  When valid, the stream yields the bytes
  from start up to min end (size - 1), so possibly fewer than
  end - start + 1 bytes, and no bytes at all when start >= size.
- JSON (de)serialisation of the catalog files is abstracted away: the
  files of the data directory store their parsed values directly.
-/

/-- One decimal digit character, for d < 10. -/
def digitChar (d : Nat) : Char := Char.ofNat (48 + d)

/-- Fuel-driven decimal rendering of a natural number (least significant
digit handled last); fuel n + 1 always suffices. -/
def natDecCore : Nat → Nat → List Char
  | 0, _ => []
  | fuel + 1, n =>
    if n < 10 then [digitChar n] else natDecCore fuel (n / 10) ++ [digitChar (n % 10)]

/-- Decimal digit string of a natural number, as JavaScript renders a
non-negative integer in a template literal. -/
def natDecL (n : Nat) : List Char := natDecCore (n + 1) n

/-- Decimal rendering of an integer (JavaScript template rendering of an
integral number). -/
def intDecL (i : Int) : List Char :=
  if i < 0 then '-' :: natDecL (-i).toNat else natDecL i.toNat

/-- Rendering of a parsed range bound: none is NaN and renders "NaN",
exactly as a JavaScript template literal renders it. -/
def numDecL (v : Option Int) : List Char :=
  match v with
  | some i => intDecL i
  | none => ['N', 'a', 'N']

/-- String form of natDecL. -/
def natStr (n : Nat) : String := String.mk (natDecL n)

/-- Value of a list of decimal digit characters, most significant first. -/
def digitsVal (l : List Char) : Nat := l.foldl (fun a c => 10 * a + (c.toNat - 48)) 0

/-- JavaScript parseInt(s, 10) on a list of characters: skip leading
whitespace, read an optional sign, then the maximal run of leading
decimal digits; none (NaN) when that run is empty. -/
def jsParseIntL (l : List Char) : Option Int :=
  let l1 := l.dropWhile (fun c => c.isWhitespace)
  match l1 with
  | [] => none
  | c :: rest =>
    if c = '-' then (jsDigitRun rest).map (fun n => -(n : Int))
    else if c = '+' then (jsDigitRun rest).map (fun n => (n : Int))
    else (jsDigitRun (c :: rest)).map (fun n => (n : Int))
where
  /-- Maximal leading digit run, none when empty. -/
  jsDigitRun (l : List Char) : Option Nat :=
    let ds := l.takeWhile (fun c => c.isDigit)
    if ds.isEmpty then none else some (digitsVal ds)

/-- JavaScript parseInt(s, 10) on a String. -/
def jsParseInt (s : String) : Option Int := jsParseIntL s.data

/-- JavaScript s.split(sep) for a one-character separator. -/
def splitOnCh (sep : Char) : List Char → List (List Char)
  | [] => [[]]
  | c :: rest =>
    if c = sep then [] :: splitOnCh sep rest
    else
      match splitOnCh sep rest with
      | [] => [[c]]
      | g :: gs => (c :: g) :: gs

/-- JavaScript s.replace(pat, <empty>) for a plain pattern: remove the
first occurrence of pat, leave the string unchanged when pat does not
occur.  Models range.replace(/bytes=/, <empty>) at server.js line 450. -/
def stripOcc (pat : List Char) : List Char → List Char
  | [] => []
  | c :: rest =>
    if pat.isPrefixOf (c :: rest) then (c :: rest).drop pat.length
    else c :: stripOcc pat rest

/-- The pattern bytes= of the Range header. -/
def bytesPat : List Char := ['b', 'y', 't', 'e', 's', '=']

/-- An anime record of the animes.json file.  Fields the server reads
are typed; fields a record may lack are Option (a JSON object simply
missing the key).  id is the numeric identifier compared with === at
server.js line 225. -/
structure AnimeRec where
  id : Int
  title : String
  synopsis : Option String := none
  genres : Option (List String) := none
  views : Option Int := none
  kind : Option String := none
  currentEpisode : Option Int := none
  episodes : Option Int := none
  hasSubs : Option Bool := none
  hasAudio : Option Bool := none
  isTrending : Option Bool := none
  dateAdded : Option String := none
  poster : Option String := none
  status : Option String := none
deriving DecidableEq

/-- An episode record of a per-anime episodes file.  sources is the
object mapping server keys (server1, server2, ...) to source strings;
an episode without a sources object is modelled by the empty list,
observationally identical for the lookups the server performs. -/
structure EpisodeRec where
  episodeNumber : Int
  title : String := ""
  description : String := ""
  sources : List (String × String) := []
  dateAdded : String := ""
deriving DecidableEq

/-- The trending.json document. -/
structure TrendingDoc where
  mode : String
  maxItems : Int
  manualTrending : List Int
deriving DecidableEq

/-- One entry of schedule.json. -/
structure ScheduleRec where
  id : Int
  animeId : Int
  dayOfWeek : String
  releaseTime : String
deriving DecidableEq

/-- The persisted catalog state: the animes file, the per-anime episodes
files of the data/episodes directory (an association list keyed by the
parsed anime id - none is the NaN key, since a template literal renders
every NaN as the same file name NaN.json), the trending file and the
schedule file. -/
structure CatalogState where
  animes : List AnimeRec
  episodesFiles : List (Option Int × List EpisodeRec)
  trending : TrendingDoc
  schedule : List ScheduleRec
deriving DecidableEq

/-- Outcome of one HTTP request, as far as the claims observe it:
redirect, full body (status 200), range body (status 206), a JSON 404
error, or the Express default error handler answering a synchronous
throw (status 500).  The okRange fields mirror the writeHead(206, ...)
header object of server.js lines 456-461 plus the piped body bytes. -/
inductive Response where
  | redirect (url : String)
  | okFull (contentLength : Nat) (contentType : String) (body : List Nat)
  | okRange (contentRange : String) (acceptRanges : String) (contentLength : Int)
      (contentType : String) (body : List Nat)
  | notFoundJson (error : String)
  | okJsonAnime (a : AnimeRec)
  | serverError
deriving DecidableEq

/-- HTTP status code of a response. -/
def Response.status : Response → Nat
  | .redirect _ => 302
  | .okFull _ _ _ => 200
  | .okRange _ _ _ _ _ => 206
  | .notFoundJson _ => 404
  | .okJsonAnime _ => 200
  | .serverError => 500

/-- The Content-Range header text built at server.js line 457:
bytes start-end/fileSize, with the JavaScript rendering of each part. -/
def contentRangeStr (s e : Int) (total : Nat) : String :=
  String.mk (('b' :: 'y' :: 't' :: 'e' :: 's' :: ' ' :: intDecL s)
    ++ ('-' :: intDecL e) ++ ('/' :: natDecL total))

/-- Range parsing of server.js lines 450-452, given the file size:
parts = range.replace(/bytes=/, '').split('-');
start = parseInt(parts[0], 10);
end = parts[1] ? parseInt(parts[1], 10) : fileSize - 1.
none stands for NaN; parts[1] is falsy when absent or empty. -/
def parseRangeHeader (fileSize : Int) (range : String) : Option Int × Option Int :=
  let parts := splitOnCh '-' (stripOcc bytesPat range.data)
  let startv := jsParseIntL (parts.headD [])
  let endv : Option Int :=
    match parts.get? 1 with
    | some l => if l.isEmpty then some (fileSize - 1) else jsParseIntL l
    | none => some (fileSize - 1)
  (startv, endv)

/-- The ranged branch of server.js lines 453-463: compute
chunksize = end - start + 1, open fs.createReadStream(localPath, with
start and end) - which throws ERR_OUT_OF_RANGE (answered with status
500) unless start and end are integers with 0 <= start, 0 <= end,
start <= end - then write head 206 and pipe the stream, which yields
the file's bytes from start to min end (fileSize - 1). -/
def rangeResponse (data : List Nat) (startv endv : Option Int) : Response :=
  match startv, endv with
  | some s, some e =>
    if 0 ≤ s ∧ 0 ≤ e ∧ s ≤ e then
      .okRange (contentRangeStr s e data.length) "bytes" (e - s + 1) "video/mp4"
        ((data.drop s.toNat).take (e - s + 1).toNat)
    else .serverError
  | _, _ => .serverError

/-- The video serving tail of the route handler, server.js lines
430-472: redirect when the source starts with http; otherwise join
against the content root (the local file system argument is keyed by
the relative source string), 404 when the file does not exist, else
serve the whole file (status 200) or the requested range (status 206). -/
def serveVideoSource (videoPath : String) (localFs : String → Option (List Nat))
    (rangeHeader : Option String) : Response :=
  if "http".data.isPrefixOf videoPath.data then .redirect videoPath
  else
    match localFs videoPath with
    | none => .notFoundJson "Video file not found"
    | some data =>
      match rangeHeader with
      | some range =>
        let p := parseRangeHeader (data.length : Int) range
        rangeResponse data p.1 p.2
      | none => .okFull data.length "video/mp4" data

/-- Strict equality of a number with a possibly-NaN number (JavaScript
===): NaN compares unequal to everything. -/
def numEq (a : Int) (b : Option Int) : Bool :=
  match b with
  | some v => a == v
  | none => false

/-- readEpisodes of server.js lines 107-122, on the parsed anime id:
when the episodes file does not exist it is created holding the empty
list (fs.writeFileSync at line 111) and [] is returned; otherwise the
file's content is returned and the state is untouched. -/
def readEpisodes (animeId : Option Int) (st : CatalogState) :
    List EpisodeRec × CatalogState :=
  match st.episodesFiles.lookup animeId with
  | none => ([], { st with episodesFiles := (animeId, []) :: st.episodesFiles })
  | some eps => (eps, st)

/-- The response computation of the video route, server.js lines
418-472, after readEpisodes has produced the episode list: find the
episode by strict equality on episodeNumber, look up the server key
(a template literal - a NaN server number yields the key serverNaN),
treat an absent or empty (falsy) source as not found, then serve. -/
def episodeStreamResponse (episodes : List EpisodeRec) (episodeNumber serverNumber : Option Int)
    (rangeHeader : Option String) (videoFs : String → Option (List Nat)) : Response :=
  match episodes.find? (fun ep => numEq ep.episodeNumber episodeNumber) with
  | none => .notFoundJson "Episode not found"
  | some ep =>
    let serverKey := String.mk (('s' :: 'e' :: 'r' :: 'v' :: 'e' :: 'r' :: []) ++ numDecL serverNumber)
    match ep.sources.lookup serverKey with
    | none => .notFoundJson "Video source not found"
    | some videoPath =>
      if videoPath = "" then .notFoundJson "Video source not found"
      else serveVideoSource videoPath videoFs rangeHeader

/-- The whole video route handler GET
/api/animes/:id/episodes/:episode/server/:server, server.js lines
412-473: parse the three params, read the episodes file (the only
touch of the catalog state), and compute the response.  Returns the
response together with the catalog state after the request. -/
def getVideoRoute (idStr epStr svStr : String) (rangeHeader : Option String)
    (st : CatalogState) (videoFs : String → Option (List Nat)) :
    Response × CatalogState :=
  let p := readEpisodes (jsParseInt idStr) st
  (episodeStreamResponse p.1 (jsParseInt epStr) (jsParseInt svStr) rangeHeader videoFs, p.2)

/-- JavaScript a || b on a possibly-missing number: null/undefined and 0
are falsy. -/
def jsOrNum (v : Option Int) (d : Int) : Int :=
  match v with
  | some x => if x = 0 then d else x
  | none => d

/-- JavaScript a || b on a possibly-missing string: missing and the
empty string are falsy. -/
def jsOrStr (v : Option String) (d : String) : String :=
  match v with
  | some x => if x = "" then d else x
  | none => d

/-- The defaulted anime object built at server.js lines 232-240 for the
anime-by-id route (spread of the record with defaults filled in).
rand models Math.floor(Math.random() * 1000). -/
def animeWithDefaults (rand : Int) (a : AnimeRec) : AnimeRec :=
  { a with
    views := some (jsOrNum a.views rand)
    kind := some (jsOrStr a.kind "TV")
    currentEpisode := some (jsOrNum a.currentEpisode (jsOrNum a.episodes 0))
    hasSubs := some (a.hasSubs.getD true)
    hasAudio := some (a.hasAudio.getD true)
    isTrending := some (a.isTrending.getD false) }

/-- The anime-by-id route handler GET /api/animes/:id, server.js lines
222-243: parse the id, find the anime by strict equality (an
unparseable id is NaN and matches nothing), 404 when absent, otherwise
the defaulted record as JSON. -/
def getAnimeById (idStr : String) (rand : Int) (st : CatalogState) : Response :=
  match st.animes.find? (fun a => numEq a.id (jsParseInt idStr)) with
  | none => .notFoundJson "Anime not found"
  | some a => .okJsonAnime (animeWithDefaults rand a)

/-- One segment of an Express route pattern: a literal, a named param
(which matches any non-empty segment), or the param-with-suffix
pattern :page.html of server.js line 1003. -/
inductive Seg where
  | lit (s : String)
  | par (name : String)
  | parHtml (name : String)
deriving DecidableEq

/-- The GET routes of server.js in registration order (lines 206, 222,
364, 389, 397, 412, 779, 825, 884, 982, 990, 994, 998, 1003). -/
inductive RouteId where
  | allAnimes
  | animeById
  | searchAnimes
  | episodesList
  | episodeByNumber
  | videoServer
  | relatedAnime
  | trendingGet
  | scheduleGet
  | placeholderImg
  | rootPage
  | watchPage
  | adminPage
  | htmlPage
deriving DecidableEq

/-- Match one route pattern against the path segments, producing the
captured params in order. -/
def matchRoute : List Seg → List String → Option (List (String × String))
  | [], [] => some []
  | .lit s :: ps, t :: ts => if t = s then matchRoute ps ts else none
  | .par n :: ps, t :: ts =>
    if t = "" then none else (matchRoute ps ts).map (fun c => (n, t) :: c)
  | .parHtml n :: ps, t :: ts =>
    if t.data.length > 5 ∧ (['.', 'h', 't', 'm', 'l'] : List Char).isSuffixOf t.data then
      (matchRoute ps ts).map (fun c => (n, String.mk (t.data.take (t.data.length - 5))) :: c)
    else none
  | _, _ => none

/-- The registered GET route table, in registration order. -/
def getRoutes : List (RouteId × List Seg) :=
  [ (.allAnimes, [.lit "api", .lit "animes"]),
    (.animeById, [.lit "api", .lit "animes", .par "id"]),
    (.searchAnimes, [.lit "api", .lit "animes", .lit "search"]),
    (.episodesList, [.lit "api", .lit "animes", .par "id", .lit "episodes"]),
    (.episodeByNumber, [.lit "api", .lit "animes", .par "id", .lit "episodes", .par "episode"]),
    (.videoServer, [.lit "api", .lit "animes", .par "id", .lit "episodes", .par "episode",
      .lit "server", .par "server"]),
    (.relatedAnime, [.lit "api", .lit "animes", .par "id", .lit "related"]),
    (.trendingGet, [.lit "api", .lit "trending"]),
    (.scheduleGet, [.lit "api", .lit "schedule"]),
    (.placeholderImg, [.lit "api", .lit "placeholder", .par "width", .par "height"]),
    (.rootPage, []),
    (.watchPage, [.lit "watch"]),
    (.adminPage, [.lit "admin"]),
    (.htmlPage, [.parHtml "page"]) ]

/-- Express dispatch: the first registered route whose pattern matches
the path wins. -/
def firstRoute (routes : List (RouteId × List Seg)) (path : List String) :
    Option (RouteId × List (String × String)) :=
  routes.findSome? (fun r => (matchRoute r.2 path).map (fun c => (r.1, c)))

/-! ### Arithmetic and string lemmas -/

theorem digitChar_toNat {d : Nat} (h : d < 10) : (digitChar d).toNat = 48 + d := by
  interval_cases d <;> decide

theorem digitChar_isDigit {d : Nat} (h : d < 10) : (digitChar d).isDigit = true := by
  interval_cases d <;> decide

theorem isDigit_not_ws {c : Char} (h : c.isDigit = true) : c.isWhitespace = false := by
  cases hw : c.isWhitespace
  · rfl
  · exfalso
    simp only [Char.isWhitespace, Bool.or_eq_true, decide_eq_true_eq] at hw
    rcases hw with ((he | he) | he) | he <;> subst he <;> exact absurd h (by decide)

theorem isDigit_ne_dash {c : Char} (h : c.isDigit = true) : ¬ c = '-' := by
  intro he; subst he; exact absurd h (by decide)

theorem isDigit_ne_plus {c : Char} (h : c.isDigit = true) : ¬ c = '+' := by
  intro he; subst he; exact absurd h (by decide)

theorem digitsVal_append_digit (l : List Char) (c : Char) :
    digitsVal (l ++ [c]) = 10 * digitsVal l + (c.toNat - 48) := by
  simp [digitsVal, List.foldl_append]

theorem natDecCore_val {fuel n : Nat} (h : n < fuel) :
    digitsVal (natDecCore fuel n) = n := by
  induction fuel generalizing n with
  | zero => omega
  | succ fuel ih =>
    rw [natDecCore]
    by_cases h10 : n < 10
    · simp [h10, digitsVal, digitChar_toNat h10]
    · rw [if_neg h10, digitsVal_append_digit, ih (by omega),
        digitChar_toNat (Nat.mod_lt n (by omega))]
      omega

theorem natDecL_val (n : Nat) : digitsVal (natDecL n) = n :=
  natDecCore_val (Nat.lt_succ_self n)

theorem natDecCore_digits {fuel n : Nat} :
    ∀ c ∈ natDecCore fuel n, c.isDigit = true := by
  induction fuel generalizing n with
  | zero => intro c hc; simp [natDecCore] at hc
  | succ fuel ih =>
    intro c hc
    rw [natDecCore] at hc
    by_cases h10 : n < 10
    · simp [h10] at hc
      subst hc; exact digitChar_isDigit h10
    · rw [if_neg h10] at hc
      rcases List.mem_append.mp hc with h1 | h1
      · exact ih c h1
      · simp at h1; subst h1; exact digitChar_isDigit (Nat.mod_lt n (by omega))

theorem natDecL_digits {n : Nat} : ∀ c ∈ natDecL n, c.isDigit = true :=
  natDecCore_digits

theorem natDecCore_ne_nil {fuel n : Nat} (h : n < fuel) : ¬ natDecCore fuel n = [] := by
  cases fuel with
  | zero => omega
  | succ fuel =>
    rw [natDecCore]
    by_cases h10 : n < 10 <;> simp [h10]

theorem natDecL_ne_nil (n : Nat) : ¬ natDecL n = [] :=
  natDecCore_ne_nil (Nat.lt_succ_self n)

theorem dropWhile_of_all_false {p : Char → Bool} {l : List Char}
    (h : ∀ c ∈ l, p c = false) : l.dropWhile p = l := by
  cases l with
  | nil => rfl
  | cons c rest => simp [List.dropWhile, h c (by simp)]

theorem jsParseIntL_digits {l : List Char} (hne : ¬ l = [])
    (hdig : ∀ c ∈ l, c.isDigit = true) :
    jsParseIntL l = some ((digitsVal l : Nat) : Int) := by
  rcases l with _ | ⟨c, rest⟩
  · exact absurd rfl hne
  · have hcd : c.isDigit = true := hdig c (by simp)
    have hdw : List.dropWhile (fun x => x.isWhitespace) (c :: rest) = c :: rest :=
      dropWhile_of_all_false (fun x hx => isDigit_not_ws (hdig x hx))
    have htw : List.takeWhile (fun x => x.isDigit) (c :: rest) = c :: rest :=
      List.takeWhile_eq_self_iff.mpr hdig
    simp only [jsParseIntL, hdw]
    rw [if_neg (isDigit_ne_dash hcd), if_neg (isDigit_ne_plus hcd)]
    simp [jsParseIntL.jsDigitRun, htw]

theorem jsParseIntL_natDecL (n : Nat) : jsParseIntL (natDecL n) = some (n : Int) := by
  rw [jsParseIntL_digits (natDecL_ne_nil n) natDecL_digits, natDecL_val]

theorem splitOnCh_ne_nil (sep : Char) (l : List Char) : ¬ splitOnCh sep l = [] := by
  induction l with
  | nil => simp [splitOnCh]
  | cons c rest ih =>
    rw [splitOnCh]
    by_cases hc : c = sep
    · simp [hc]
    · rw [if_neg hc]
      rcases h : splitOnCh sep rest with _ | ⟨g, gs⟩
      · simp
      · simp

theorem splitOnCh_append {sep : Char} {l₁ : List Char} (l₂ : List Char)
    (h : ∀ c ∈ l₁, ¬ c = sep) :
    splitOnCh sep (l₁ ++ sep :: l₂) = l₁ :: splitOnCh sep l₂ := by
  induction l₁ with
  | nil => simp [splitOnCh]
  | cons c rest ih =>
    have hc : ¬ c = sep := h c (by simp)
    rw [List.cons_append, splitOnCh, if_neg hc,
      ih (fun x hx => h x (by simp [hx]))]

theorem splitOnCh_no_sep {sep : Char} {l : List Char} (h : ∀ c ∈ l, ¬ c = sep) :
    splitOnCh sep l = [l] := by
  induction l with
  | nil => rfl
  | cons c rest ih =>
    have hc : ¬ c = sep := h c (by simp)
    rw [splitOnCh, if_neg hc, ih (fun x hx => h x (by simp [hx]))]

theorem isPrefixOf_append_self (l t : List Char) : l.isPrefixOf (l ++ t) = true := by
  induction l with
  | nil => simp [List.isPrefixOf]
  | cons c cs ih => simp [List.isPrefixOf, ih]

theorem stripOcc_self {pat : List Char} (rest : List Char) (h : ¬ pat = []) :
    stripOcc pat (pat ++ rest) = rest := by
  rcases pat with _ | ⟨c, cs⟩
  · exact absurd rfl h
  · have hp : (c :: cs).isPrefixOf ((c :: cs) ++ rest) = true :=
      isPrefixOf_append_self _ _
    rw [List.cons_append, stripOcc, ← List.cons_append, if_pos hp]
    exact List.drop_left _ _

theorem natDecL_no_dash (n : Nat) : ∀ c ∈ natDecL n, ¬ c = '-' :=
  fun c hc => isDigit_ne_dash (natDecL_digits c hc)

/-- The header bytes=a-b parses to (some a, some b). -/
theorem parseRangeHeader_closed (fileSize : Int) (a b : Nat) :
    parseRangeHeader fileSize ("bytes=" ++ natStr a ++ "-" ++ natStr b) =
      (some (a : Int), some (b : Int)) := by
  have hdata : ("bytes=" ++ natStr a ++ "-" ++ natStr b).data
      = bytesPat ++ (natDecL a ++ '-' :: natDecL b) := by
    simp [String.data_append, natStr, bytesPat]
  rw [parseRangeHeader, hdata, stripOcc_self _ (by simp [bytesPat]),
    splitOnCh_append _ (natDecL_no_dash a),
    splitOnCh_no_sep (natDecL_no_dash b)]
  simp [jsParseIntL_natDecL, List.isEmpty_iff, natDecL_ne_nil,
    jsParseIntL_digits (natDecL_ne_nil b) natDecL_digits, natDecL_val]

/-- The open-ended header bytes=a- parses to (some a, fileSize - 1). -/
theorem parseRangeHeader_open (fileSize : Int) (a : Nat) :
    parseRangeHeader fileSize ("bytes=" ++ natStr a ++ "-") =
      (some (a : Int), some (fileSize - 1)) := by
  have hdata : ("bytes=" ++ natStr a ++ "-").data
      = bytesPat ++ (natDecL a ++ '-' :: []) := by
    simp [String.data_append, natStr, bytesPat]
  rw [parseRangeHeader, hdata, stripOcc_self _ (by simp [bytesPat]),
    splitOnCh_append _ (natDecL_no_dash a)]
  simp [splitOnCh, jsParseIntL_natDecL]

/-- A first range part that parses to NaN drives the whole parse to a
NaN start, whatever the second part holds. -/
theorem parseRangeHeader_nan (fileSize : Int) (s1 s2 : String)
    (hno : ∀ c ∈ s1.data, ¬ c = '-') (hnan : jsParseIntL s1.data = none) :
    (parseRangeHeader fileSize ("bytes=" ++ s1 ++ "-" ++ s2)).1 = none := by
  have hdata : ("bytes=" ++ s1 ++ "-" ++ s2).data
      = bytesPat ++ (s1.data ++ '-' :: s2.data) := by
    simp [String.data_append, bytesPat]
  rw [parseRangeHeader, hdata, stripOcc_self _ (by simp [bytesPat]),
    splitOnCh_append _ hno]
  simpa using hnan

/-! ### Claim theorems -/

/-- Claim C3: for every request for an existing local video file that
carries no Range header, the streaming endpoint responds with status
200, Content-Length equal to the full file size, Content-Type
video/mp4, and a body equal to the entire file's bytes. -/
theorem claim3_no_range_full_file (vp : String) (fs : String → Option (List Nat))
    (data : List Nat)
    (hlocal : "http".data.isPrefixOf vp.data = false)
    (hfile : fs vp = some data) :
    serveVideoSource vp fs none = Response.okFull data.length "video/mp4" data ∧
    (serveVideoSource vp fs none).status = 200 := by
  constructor <;> simp [serveVideoSource, hlocal, hfile, Response.status]

/-- Witness for claim C3 at a concrete file. -/
theorem claim3_witness :
    serveVideoSource "uploads/3/episode_2.mp4"
      (fun p => if p = "uploads/3/episode_2.mp4" then some [9, 8, 7] else none) none =
      Response.okFull 3 "video/mp4" [9, 8, 7] ∧
    (serveVideoSource "uploads/3/episode_2.mp4"
      (fun p => if p = "uploads/3/episode_2.mp4" then some [9, 8, 7] else none) none).status
      = 200 :=
  claim3_no_range_full_file "uploads/3/episode_2.mp4"
    (fun p => if p = "uploads/3/episode_2.mp4" then some [9, 8, 7] else none)
    [9, 8, 7] (by decide) (by decide)

/-- Claim C4: for every resolved video source string that begins with
http, the endpoint responds with a redirect to that URL; the result is
the same whatever the local file system or the Range header hold, so no
existence check, local read or range processing takes place. -/
theorem claim4_remote_redirect (vp : String)
    (hremote : "http".data.isPrefixOf vp.data = true)
    (fs : String → Option (List Nat)) (rangeHeader : Option String) :
    serveVideoSource vp fs rangeHeader = Response.redirect vp ∧
    (serveVideoSource vp fs rangeHeader).status = 302 := by
  constructor <;> simp [serveVideoSource, hremote, Response.status]

/-- Witness for claim C4 at a concrete remote source. -/
theorem claim4_witness :
    serveVideoSource "https://example.com/video.mp4" (fun _ => none)
      (some "bytes=0-") = Response.redirect "https://example.com/video.mp4" ∧
    (serveVideoSource "https://example.com/video.mp4" (fun _ => none)
      (some "bytes=0-")).status = 302 :=
  claim4_remote_redirect _ (by decide) _ _

/-- Claim C5: for every resolved local source string whose joined path
does not exist, the endpoint answers 404 with the Video file not found
error, for every Range header. -/
theorem claim5_missing_file_404 (vp : String) (fs : String → Option (List Nat))
    (rangeHeader : Option String)
    (hlocal : "http".data.isPrefixOf vp.data = false)
    (hfile : fs vp = none) :
    serveVideoSource vp fs rangeHeader = Response.notFoundJson "Video file not found" ∧
    (serveVideoSource vp fs rangeHeader).status = 404 := by
  constructor <;> simp [serveVideoSource, hlocal, hfile, Response.status]

/-- Witness for claim C5 at a concrete missing path. -/
theorem claim5_witness :
    serveVideoSource "uploads/9/episode_9.mp4" (fun _ => none) (some "bytes=0-100") =
      Response.notFoundJson "Video file not found" ∧
    (serveVideoSource "uploads/9/episode_9.mp4" (fun _ => none)
      (some "bytes=0-100")).status = 404 :=
  claim5_missing_file_404 "uploads/9/episode_9.mp4" (fun _ => none)
    (some "bytes=0-100") (by decide) (by decide)

/-- Claim C1: for a local file and a Range header bytes=start-end with
start <= end < fileSize, the endpoint answers 206 with Content-Range
bytes start-end/fileSize, Content-Length end - start + 1, and a body of
exactly the file's bytes in the window from start to end inclusive. -/
theorem claim1_valid_range_exact (vp : String) (fs : String → Option (List Nat))
    (data : List Nat) (s e : Nat)
    (hlocal : "http".data.isPrefixOf vp.data = false)
    (hfile : fs vp = some data)
    (hse : s ≤ e) (he : e < data.length) :
    serveVideoSource vp fs (some ("bytes=" ++ natStr s ++ "-" ++ natStr e)) =
      Response.okRange (contentRangeStr s e data.length) "bytes"
        ((e : Int) - (s : Int) + 1) "video/mp4" ((data.drop s).take (e - s + 1)) ∧
    (serveVideoSource vp fs (some ("bytes=" ++ natStr s ++ "-" ++ natStr e))).status = 206 ∧
    ((data.drop s).take (e - s + 1)).length = e - s + 1 := by
  have hcond : (0 : Int) ≤ (s : Int) ∧ (0 : Int) ≤ (e : Int) ∧ (s : Int) ≤ (e : Int) := by
    omega
  have hmain : serveVideoSource vp fs (some ("bytes=" ++ natStr s ++ "-" ++ natStr e)) =
      Response.okRange (contentRangeStr s e data.length) "bytes"
        ((e : Int) - (s : Int) + 1) "video/mp4" ((data.drop s).take (e - s + 1)) := by
    simp only [serveVideoSource, hlocal, Bool.false_eq_true, if_false, hfile,
      parseRangeHeader_closed]
    rw [rangeResponse, if_pos hcond]
    have h1 : ((s : Int)).toNat = s := by omega
    have h2 : ((e : Int) - (s : Int) + 1).toNat = e - s + 1 := by omega
    rw [h1, h2]
  refine ⟨hmain, by rw [hmain]; rfl, ?_⟩
  rw [List.length_take, List.length_drop]
  omega

/-- Witness for claim C1: a 5-byte file and the range bytes=1-3. -/
theorem claim1_witness :
    ("bytes=" ++ natStr 1 ++ "-" ++ natStr 3) = "bytes=1-3" ∧
    contentRangeStr 1 3 5 = "bytes 1-3/5" ∧
    (serveVideoSource "uploads/1/episode_1.mp4"
      (fun p => if p = "uploads/1/episode_1.mp4" then some [10, 20, 30, 40, 50] else none)
      (some ("bytes=" ++ natStr 1 ++ "-" ++ natStr 3)) =
      Response.okRange (contentRangeStr 1 3 5) "bytes" ((3 : Int) - (1 : Int) + 1)
        "video/mp4" (([10, 20, 30, 40, 50].drop 1).take (3 - 1 + 1)) ∧
    (serveVideoSource "uploads/1/episode_1.mp4"
      (fun p => if p = "uploads/1/episode_1.mp4" then some [10, 20, 30, 40, 50] else none)
      (some ("bytes=" ++ natStr 1 ++ "-" ++ natStr 3))).status = 206 ∧
    (([10, 20, 30, 40, 50].drop 1).take (3 - 1 + 1)).length = 3 - 1 + 1) :=
  ⟨by decide, by decide,
    claim1_valid_range_exact "uploads/1/episode_1.mp4"
      (fun p => if p = "uploads/1/episode_1.mp4" then some [10, 20, 30, 40, 50] else none)
      [10, 20, 30, 40, 50] 1 3 (by decide) (by decide) (by decide) (by decide)⟩

/-- Counterexample to claim C2 as stated: on a 1-byte file the
open-ended header bytes=1- makes end resolve to fileSize - 1 = 0 while
start = 1, so the stream constructor rejects start > end and the
request fails with status 500, not with a 206 ranged response. -/
theorem claim2_counterexample :
    ("bytes=" ++ natStr 1 ++ "-") = "bytes=1-" ∧
    serveVideoSource "uploads/1/episode_1.mp4"
      (fun p => if p = "uploads/1/episode_1.mp4" then some [7] else none)
      (some "bytes=1-") = Response.serverError ∧
    ¬ (serveVideoSource "uploads/1/episode_1.mp4"
      (fun p => if p = "uploads/1/episode_1.mp4" then some [7] else none)
      (some "bytes=1-")).status = 206 := by
  exact ⟨by decide, by decide, by decide⟩

/-- Claim C2 as amended: for a Range header bytes=start- whose second
part is empty, with start < fileSize, the endpoint resolves end to
fileSize - 1 and answers 206 with the remaining content from start to
the last byte of the file. -/
theorem claim2_amended_open_range (vp : String) (fs : String → Option (List Nat))
    (data : List Nat) (s : Nat)
    (hlocal : "http".data.isPrefixOf vp.data = false)
    (hfile : fs vp = some data)
    (hs : s < data.length) :
    serveVideoSource vp fs (some ("bytes=" ++ natStr s ++ "-")) =
      Response.okRange (contentRangeStr s ((data.length : Int) - 1) data.length) "bytes"
        ((data.length : Int) - (s : Int)) "video/mp4" (data.drop s) ∧
    (serveVideoSource vp fs (some ("bytes=" ++ natStr s ++ "-"))).status = 206 := by
  have hcond : (0 : Int) ≤ (s : Int) ∧ (0 : Int) ≤ (data.length : Int) - 1 ∧
      (s : Int) ≤ (data.length : Int) - 1 := by omega
  have hmain : serveVideoSource vp fs (some ("bytes=" ++ natStr s ++ "-")) =
      Response.okRange (contentRangeStr s ((data.length : Int) - 1) data.length) "bytes"
        ((data.length : Int) - (s : Int)) "video/mp4" (data.drop s) := by
    simp only [serveVideoSource, hlocal, Bool.false_eq_true, if_false, hfile,
      parseRangeHeader_open]
    rw [rangeResponse, if_pos hcond]
    have h1 : ((s : Int)).toNat = s := by omega
    have h2 : ((data.length : Int) - 1 - (s : Int) + 1) = (data.length : Int) - (s : Int) := by
      omega
    have h3 : ((data.length : Int) - (s : Int)).toNat = data.length - s := by omega
    rw [h1, h2, h3]
    have h4 : (data.drop s).take (data.length - s) = data.drop s :=
      List.take_of_length_le (by rw [List.length_drop])
    rw [h4]
  exact ⟨hmain, by rw [hmain]; rfl⟩

/-- Witness for the amended claim C2: a 4-byte file and bytes=1-. -/
theorem claim2_witness :
    serveVideoSource "uploads/1/episode_1.mp4"
      (fun p => if p = "uploads/1/episode_1.mp4" then some [4, 5, 6, 7] else none)
      (some ("bytes=" ++ natStr 1 ++ "-")) =
      Response.okRange (contentRangeStr 1 ((4 : Int) - 1) 4) "bytes"
        ((4 : Int) - (1 : Int)) "video/mp4" ([4, 5, 6, 7].drop 1) ∧
    (serveVideoSource "uploads/1/episode_1.mp4"
      (fun p => if p = "uploads/1/episode_1.mp4" then some [4, 5, 6, 7] else none)
      (some ("bytes=" ++ natStr 1 ++ "-"))).status = 206 :=
  claim2_amended_open_range "uploads/1/episode_1.mp4"
    (fun p => if p = "uploads/1/episode_1.mp4" then some [4, 5, 6, 7] else none)
    [4, 5, 6, 7] 1 (by decide) (by decide) (by decide)

/-- Counterexample to claim C6 as stated: on a 10-byte file the header
bytes=20-30 has start >= fileSize, yet the endpoint does not answer
416: it emits a 206 ranged response (with an empty body and headers
advertising bytes 20-30/10). -/
theorem claim6_counterexample :
    serveVideoSource "uploads/2/episode_1.mp4"
      (fun p => if p = "uploads/2/episode_1.mp4"
        then some [0, 1, 2, 3, 4, 5, 6, 7, 8, 9] else none)
      (some "bytes=20-30") =
      Response.okRange "bytes 20-30/10" "bytes" 11 "video/mp4" [] ∧
    (serveVideoSource "uploads/2/episode_1.mp4"
      (fun p => if p = "uploads/2/episode_1.mp4"
        then some [0, 1, 2, 3, 4, 5, 6, 7, 8, 9] else none)
      (some "bytes=20-30")).status = 206 := by
  exact ⟨by decide, by decide⟩

/-- Claim C6 as amended: the endpoint never answers 416.  For a header
bytes=start-end with start >= fileSize, it emits a 206 response with an
empty body when start <= end, and fails with status 500 (the stream
constructor rejects start > end) when start > end. -/
theorem claim6_amended_no_416 (vp : String) (fs : String → Option (List Nat))
    (data : List Nat) (s e : Nat)
    (hlocal : "http".data.isPrefixOf vp.data = false)
    (hfile : fs vp = some data)
    (hbig : data.length ≤ s) :
    serveVideoSource vp fs (some ("bytes=" ++ natStr s ++ "-" ++ natStr e)) =
      (if s ≤ e then
        Response.okRange (contentRangeStr s e data.length) "bytes"
          ((e : Int) - (s : Int) + 1) "video/mp4" []
      else Response.serverError) ∧
    ¬ (serveVideoSource vp fs
        (some ("bytes=" ++ natStr s ++ "-" ++ natStr e))).status = 416 := by
  have hmain : serveVideoSource vp fs (some ("bytes=" ++ natStr s ++ "-" ++ natStr e)) =
      (if s ≤ e then
        Response.okRange (contentRangeStr s e data.length) "bytes"
          ((e : Int) - (s : Int) + 1) "video/mp4" []
      else Response.serverError) := by
    simp only [serveVideoSource, hlocal, Bool.false_eq_true, if_false, hfile,
      parseRangeHeader_closed]
    by_cases hse : s ≤ e
    · have hcond : (0 : Int) ≤ (s : Int) ∧ (0 : Int) ≤ (e : Int) ∧ (s : Int) ≤ (e : Int) := by
        omega
      rw [rangeResponse, if_pos hcond, if_pos hse]
      have h1 : ((s : Int)).toNat = s := by omega
      rw [h1, List.drop_eq_nil_of_le hbig]
      simp
    · have hcond : ¬ ((0 : Int) ≤ (s : Int) ∧ (0 : Int) ≤ (e : Int) ∧
          (s : Int) ≤ (e : Int)) := by omega
      rw [rangeResponse, if_neg hcond, if_neg hse]
  refine ⟨hmain, ?_⟩
  rw [hmain]
  by_cases hse : s ≤ e
  · rw [if_pos hse]; simp [Response.status]
  · rw [if_neg hse]; simp [Response.status]

/-- Witness for the amended claim C6: a 10-byte file and bytes=20-30. -/
theorem claim6_witness :
    serveVideoSource "uploads/2/episode_1.mp4"
      (fun p => if p = "uploads/2/episode_1.mp4"
        then some [0, 1, 2, 3, 4, 5, 6, 7, 8, 9] else none)
      (some ("bytes=" ++ natStr 20 ++ "-" ++ natStr 30)) =
      (if 20 ≤ 30 then
        Response.okRange (contentRangeStr 20 30 10) "bytes"
          ((30 : Int) - (20 : Int) + 1) "video/mp4" []
      else Response.serverError) ∧
    ¬ (serveVideoSource "uploads/2/episode_1.mp4"
      (fun p => if p = "uploads/2/episode_1.mp4"
        then some [0, 1, 2, 3, 4, 5, 6, 7, 8, 9] else none)
      (some ("bytes=" ++ natStr 20 ++ "-" ++ natStr 30))).status = 416 :=
  claim6_amended_no_416 "uploads/2/episode_1.mp4"
    (fun p => if p = "uploads/2/episode_1.mp4"
      then some [0, 1, 2, 3, 4, 5, 6, 7, 8, 9] else none)
    [0, 1, 2, 3, 4, 5, 6, 7, 8, 9] 20 30 (by decide) (by decide) (by decide)

/-- Counterexample to claim C7 as stated: with the header bytes=abc-
on an existing 3-byte file, parseInt of the first part is NaN and the
stream constructor rejects it, so the request fails with status 500 -
not with the claimed 400 condition. -/
theorem claim7_counterexample :
    serveVideoSource "uploads/4/episode_1.mp4"
      (fun p => if p = "uploads/4/episode_1.mp4" then some [1, 2, 3] else none)
      (some "bytes=abc-") = Response.serverError ∧
    (serveVideoSource "uploads/4/episode_1.mp4"
      (fun p => if p = "uploads/4/episode_1.mp4" then some [1, 2, 3] else none)
      (some "bytes=abc-")).status = 500 ∧
    ¬ (serveVideoSource "uploads/4/episode_1.mp4"
      (fun p => if p = "uploads/4/episode_1.mp4" then some [1, 2, 3] else none)
      (some "bytes=abc-")).status = 400 := by
  exact ⟨by decide, by decide, by decide⟩

/-- Claim C7 as amended: when the Range header is present and its first
part (before the first dash) parses to NaN, the stream constructor
rejects the NaN start and the request fails with status 500 - not 400 -
and in particular no 206 response with NaN-derived headers is emitted. -/
theorem claim7_amended_nan_start (vp : String) (fs : String → Option (List Nat))
    (data : List Nat) (s1 s2 : String)
    (hlocal : "http".data.isPrefixOf vp.data = false)
    (hfile : fs vp = some data)
    (hno : ∀ c ∈ s1.data, ¬ c = '-')
    (hnan : jsParseIntL s1.data = none) :
    serveVideoSource vp fs (some ("bytes=" ++ s1 ++ "-" ++ s2)) = Response.serverError ∧
    ¬ (serveVideoSource vp fs (some ("bytes=" ++ s1 ++ "-" ++ s2))).status = 206 := by
  have hstart := parseRangeHeader_nan (data.length : Int) s1 s2 hno hnan
  have hmain : serveVideoSource vp fs (some ("bytes=" ++ s1 ++ "-" ++ s2)) =
      Response.serverError := by
    simp only [serveVideoSource, hlocal, Bool.false_eq_true, if_false, hfile]
    rcases hp : parseRangeHeader (data.length : Int) ("bytes=" ++ s1 ++ "-" ++ s2)
      with ⟨startv, endv⟩
    rw [hp] at hstart
    simp at hstart
    subst hstart
    rcases endv with _ | e <;> rfl
  exact ⟨hmain, by rw [hmain]; decide⟩

/-- Witness for the amended claim C7: the header bytes=abc-. -/
theorem claim7_witness :
    ("bytes=" ++ "abc" ++ "-" ++ "") = "bytes=abc-" ∧
    (serveVideoSource "uploads/4/episode_1.mp4"
      (fun p => if p = "uploads/4/episode_1.mp4" then some [1, 2, 3] else none)
      (some ("bytes=" ++ "abc" ++ "-" ++ "")) = Response.serverError ∧
    ¬ (serveVideoSource "uploads/4/episode_1.mp4"
      (fun p => if p = "uploads/4/episode_1.mp4" then some [1, 2, 3] else none)
      (some ("bytes=" ++ "abc" ++ "-" ++ ""))).status = 206) :=
  ⟨by decide,
    claim7_amended_nan_start "uploads/4/episode_1.mp4"
      (fun p => if p = "uploads/4/episode_1.mp4" then some [1, 2, 3] else none)
      [1, 2, 3] "abc" "" (by decide) (by decide) (by decide) (by decide)⟩

theorem rangeResponse_none_start (data : List Nat) (endv : Option Int) :
    rangeResponse data none endv = Response.serverError := by
  rcases endv with _ | e <;> rfl

theorem rangeResponse_none_end (data : List Nat) (s : Int) :
    rangeResponse data (some s) none = Response.serverError := rfl

theorem rangeResponse_some_some (data : List Nat) (s e : Int) :
    rangeResponse data (some s) (some e) =
      (if 0 ≤ s ∧ 0 ≤ e ∧ s ≤ e then
        Response.okRange (contentRangeStr s e data.length) "bytes" (e - s + 1) "video/mp4"
          ((data.drop s.toNat).take (e - s + 1).toNat)
      else Response.serverError) := rfl

/-- Counterexample to claim C8 as stated: on a 2-byte file, the header
bytes=0-5 produces a 206 response whose Content-Range advertises end =
5 > fileSize - 1 = 1 and whose emitted body holds 2 bytes, not
end - start + 1 = 6. -/
theorem claim8_counterexample :
    serveVideoSource "uploads/5/episode_1.mp4"
      (fun p => if p = "uploads/5/episode_1.mp4" then some [5, 6] else none)
      (some "bytes=0-5") =
      Response.okRange "bytes 0-5/2" "bytes" 6 "video/mp4" [5, 6] ∧
    (serveVideoSource "uploads/5/episode_1.mp4"
      (fun p => if p = "uploads/5/episode_1.mp4" then some [5, 6] else none)
      (some "bytes=0-5")).status = 206 ∧
    ¬ (([5, 6] : List Nat).length : Int) = 6 := by
  exact ⟨by decide, by decide, by decide⟩

/-- Claim C8 as amended: every 206 response the endpoint emits has
parsed bounds 0 <= start <= end, Content-Length end - start + 1, and a
body of exactly the file's bytes from start to min end (fileSize - 1):
the emitted byte count is max 0 (min (end + 1) fileSize - start), which
equals end - start + 1 exactly when additionally end < fileSize. -/
theorem claim8_amended_range_invariant (vp : String) (fs : String → Option (List Nat))
    (rangeHeader : Option String) (cr ar : String) (cl : Int) (ct : String)
    (body : List Nat)
    (h : serveVideoSource vp fs rangeHeader = Response.okRange cr ar cl ct body) :
    ∃ (data : List Nat) (s e : Int),
      fs vp = some data ∧ 0 ≤ s ∧ s ≤ e ∧
      cr = contentRangeStr s e data.length ∧ cl = e - s + 1 ∧
      body = (data.drop s.toNat).take (e - s + 1).toNat ∧
      (body.length : Int) = max 0 (min (e + 1) (data.length : Int) - s) ∧
      (e < (data.length : Int) → (body.length : Int) = e - s + 1) := by
  by_cases hhttp : "http".data.isPrefixOf vp.data = true
  · have hr : serveVideoSource vp fs rangeHeader = Response.redirect vp := by
      simp [serveVideoSource, hhttp]
    rw [hr] at h
    exact absurd h (by simp)
  · rcases hfs : fs vp with _ | data
    · have hr : serveVideoSource vp fs rangeHeader =
          Response.notFoundJson "Video file not found" := by
        simp [serveVideoSource, hhttp, hfs]
      rw [hr] at h
      exact absurd h (by simp)
    · rcases rangeHeader with _ | range
      · have hr : serveVideoSource vp fs none =
            Response.okFull data.length "video/mp4" data := by
          simp [serveVideoSource, hhttp, hfs]
        rw [hr] at h
        exact absurd h (by simp)
      · have hr : serveVideoSource vp fs (some range) =
            rangeResponse data (parseRangeHeader (data.length : Int) range).1
              (parseRangeHeader (data.length : Int) range).2 := by
          simp [serveVideoSource, hhttp, hfs]
        rw [hr] at h
        rcases hs1 : (parseRangeHeader (data.length : Int) range).1 with _ | s <;>
          rw [hs1] at h
        · rw [rangeResponse_none_start] at h
          exact absurd h (by simp)
        · rcases hs2 : (parseRangeHeader (data.length : Int) range).2 with _ | e <;>
            rw [hs2] at h
          · rw [rangeResponse_none_end] at h
            exact absurd h (by simp)
          · rw [rangeResponse_some_some] at h
            by_cases hcond : (0 : Int) ≤ s ∧ 0 ≤ e ∧ s ≤ e
            · rw [if_pos hcond] at h
              obtain ⟨hcr, har, hcl, hct, hbody⟩ := Response.okRange.inj h.symm
              refine ⟨data, s, e, rfl, hcond.1, hcond.2.2, hcr, hcl, hbody, ?_, ?_⟩
              · rw [hbody, List.length_take, List.length_drop]
                have h1 := hcond.1
                have h2 := hcond.2.1
                have h3 := hcond.2.2
                push_cast [Nat.cast_min]
                omega
              · intro hlt
                rw [hbody, List.length_take, List.length_drop]
                have h1 := hcond.1
                have h3 := hcond.2.2
                push_cast [Nat.cast_min]
                omega
            · rw [if_neg hcond] at h
              exact absurd h (by simp)

/-- Witness for the amended claim C8 at a concrete 206 response. -/
theorem claim8_witness :
    ∃ (data : List Nat) (s e : Int),
      (fun p => if p = "uploads/5/episode_1.mp4" then some [5, 6] else none)
        "uploads/5/episode_1.mp4" = some data ∧ 0 ≤ s ∧ s ≤ e ∧
      "bytes 0-5/2" = contentRangeStr s e data.length ∧ (6 : Int) = e - s + 1 ∧
      ([5, 6] : List Nat) = (data.drop s.toNat).take (e - s + 1).toNat ∧
      ((([5, 6] : List Nat).length : Int) = max 0 (min (e + 1) (data.length : Int) - s)) ∧
      (e < (data.length : Int) → (([5, 6] : List Nat).length : Int) = e - s + 1) :=
  claim8_amended_range_invariant "uploads/5/episode_1.mp4"
    (fun p => if p = "uploads/5/episode_1.mp4" then some [5, 6] else none)
    (some "bytes=0-5") "bytes 0-5/2" "bytes" 6 "video/mp4" [5, 6] (by decide)

/-- Counterexample to claim C9 as stated: a GET of the video route for
anime id 1 against a catalog with no episodes files changes the
persisted state - readEpisodes creates the missing episodes file for
id 1 holding the empty list (server.js line 111). -/
theorem claim9_counterexample :
    ¬ ((getVideoRoute "1" "1" "1" none
        ⟨[], [], ⟨"auto", 10, []⟩, []⟩ (fun _ => none)).2
      = ⟨[], [], ⟨"auto", 10, []⟩, []⟩) := by
  decide

/-- Claim C9 as amended: a GET of the video route never changes the
animes, trending or schedule files, nor any episodes file of another
anime id; the only possible write is creating the missing episodes file
of the requested id with the empty list, and when that file already
exists the whole state is unchanged. -/
theorem claim9_amended_read_only_but_creation (idS epS svS : String)
    (rh : Option String) (st : CatalogState) (vfs : String → Option (List Nat)) :
    ((getVideoRoute idS epS svS rh st vfs).2.animes = st.animes ∧
     (getVideoRoute idS epS svS rh st vfs).2.trending = st.trending ∧
     (getVideoRoute idS epS svS rh st vfs).2.schedule = st.schedule) ∧
    (∀ k, ¬ k = jsParseInt idS →
      (getVideoRoute idS epS svS rh st vfs).2.episodesFiles.lookup k
        = st.episodesFiles.lookup k) ∧
    ((st.episodesFiles.lookup (jsParseInt idS)).isSome = true →
      (getVideoRoute idS epS svS rh st vfs).2 = st) := by
  have hsnd : (getVideoRoute idS epS svS rh st vfs).2
      = (readEpisodes (jsParseInt idS) st).2 := rfl
  rw [hsnd]
  rcases hl : st.episodesFiles.lookup (jsParseInt idS) with _ | eps
  · have hre : (readEpisodes (jsParseInt idS) st).2 =
        { st with episodesFiles := (jsParseInt idS, []) :: st.episodesFiles } := by
      simp [readEpisodes, hl]
    rw [hre]
    refine ⟨⟨rfl, rfl, rfl⟩, ?_, ?_⟩
    · intro k hk
      have hne : (k == jsParseInt idS) = false := beq_eq_false_iff_ne.mpr hk
      simp [List.lookup_cons, hne]
    · intro hsome
      exact absurd hsome (by simp)
  · have hre : (readEpisodes (jsParseInt idS) st).2 = st := by
      simp [readEpisodes, hl]
    rw [hre]
    exact ⟨⟨rfl, rfl, rfl⟩, fun k hk => rfl, fun hs => rfl⟩

/-- Witness for the amended claim C9: with the episodes file of anime 2
present, the state is fully unchanged, and the lookup of another key is
preserved. -/
theorem claim9_witness :
    (getVideoRoute "2" "1" "1" none
      ⟨[], [(some 2, [])], ⟨"auto", 10, []⟩, []⟩ (fun _ => none)).2
      = ⟨[], [(some 2, [])], ⟨"auto", 10, []⟩, []⟩ ∧
    (getVideoRoute "2" "1" "1" none
      ⟨[], [(some 2, [])], ⟨"auto", 10, []⟩, []⟩
      (fun _ => none)).2.episodesFiles.lookup (some 99)
      = List.lookup (some 99) [(some 2, ([] : List EpisodeRec))] :=
  ⟨(claim9_amended_read_only_but_creation "2" "1" "1" none
      ⟨[], [(some 2, [])], ⟨"auto", 10, []⟩, []⟩ (fun _ => none)).2.2 (by decide),
   (claim9_amended_read_only_but_creation "2" "1" "1" none
      ⟨[], [(some 2, [])], ⟨"auto", 10, []⟩, []⟩ (fun _ => none)).2.1
      (some 99) (by decide)⟩

/-- Claim C10: GET /api/animes/search is dispatched to the
earlier-registered route /api/animes/:id with the param id bound to the
literal segment search, and since parseInt of search is NaN, which
strict-equals no anime id, that handler answers 404 with the error
Anime not found, whatever the catalog holds. -/
theorem claim10_search_route_shadowed :
    firstRoute getRoutes ["api", "animes", "search"]
      = some (RouteId.animeById, [("id", "search")]) ∧
    ∀ (rand : Int) (st : CatalogState),
      getAnimeById "search" rand st = Response.notFoundJson "Anime not found" := by
  refine ⟨by decide, fun rand st => ?_⟩
  have hp : jsParseInt "search" = none := by decide
  have hfind : st.animes.find? (fun a => numEq a.id (jsParseInt "search")) = none := by
    rw [hp]
    exact List.find?_eq_none.mpr (fun a _ => by simp [numEq])
  simp [getAnimeById, hfind]

/-- Witness for claim C10 at a concrete non-empty catalog. -/
theorem claim10_witness :
    getAnimeById "search" 7
      ⟨[{ id := 1, title := "Naruto" }], [], ⟨"manual", 5, [1]⟩, []⟩
      = Response.notFoundJson "Anime not found" :=
  claim10_search_route_shadowed.2 7
    ⟨[{ id := 1, title := "Naruto" }], [], ⟨"manual", 5, [1]⟩, []⟩
